import Mathlib

/-!
# Verification of the Roblox Pets API core (src/api/main.py)

Shallow embedding of the classification engine, gen-counter aggregator,
job-id identifier cache, status-reporter state machine and upload path of
`src/api/main.py`, together with theorems settling the specified claims.

Conventions:
* Python `str.strip()` is modelled by `strip`, which drops leading and
  trailing whitespace from the character sequence.
* Python arbitrary-precision `int` is modelled by `Int`.
* Timestamps are modelled as `Int` seconds; `(a - b).total_seconds()`
  becomes integer subtraction.
* External HTTP interactions are modelled by oracle values describing what
  each successive call would return.
-/

namespace PetsApi

/-- The `Pet` pydantic model (main.py lines 28–34). -/
structure Pet where
  index : String
  gen : Int
  genText : String
  rarity : String
  mutation : String
  traits : String
deriving DecidableEq, Repr

/-! ## Tier sets (main.py lines 344–368)

The Python literals are `set` displays; membership is all that matters, so
they are embedded as lists.  Two pairs of adjacent string literals in the
Python source have no comma between them and therefore concatenate:
`"Popcuru And Fizzuru" "Cooki and Milki"` in `TIER2_PETS` and
`"Bacuru and Egguru" "Money Money Puggy"` in `TIER3_PETS`. -/

def TIER1_PETS : List String :=
  ["Dragon Canelonni", "La Supreme Combinasion", "Cerberus",
   "Headless Horseman", "Skibidi Toilet", "Strawberry Elephant",
   "Meowl", "Dragon Gingerini", "Ginger Gerat", "Love Love Bear"]

def TIER2_PETS : List String :=
  ["Spooky and Pumpky", "La Secret Combinasion", "Burguro and Fryuro",
   "Ketupat Bros", "Hydra Dragon Canelonni", "Reinito Sleightito",
   "Popcuru And FizzuruCooki and Milki",
   "Racconi Jandelini", "La Casa Boo", "La Food Combinasion", "Los  Amigos"]

def TIER3_PETS : List String :=
  ["Tang Tang Keletang", "Ketupat Kepat", "Spaggheti Tualetti",
   "Garama and Madundung", "La Ginger Sekolah", "Lavadorito Spinito",
   "Ketchuru and Musturu", "Tictac Sahur", "Swaggy Bros",
   "Los Tacoritas", "Los Puggies", "La Romantic Grande",
   "Orcaledon", "La spooky Grande", "W or L", "Eviledon",
   "Tralaledon", "Chipso and Queso", "Los Hotspotsitos", "Spinny Hammy",
   "Bacuru and EgguruMoney Money Puggy",
   "Nuclearo Dinossauro", "Tacorita Bicicleta", "Los Primos", "Los Bros",
   "Baccuru and Egguru", "Mariachi Corazoni", "Esok Sekolah",
   "Mieteteira Bicicleteira", "Chicleteira Noelteira", "Cupideira Chicleteira"]

def SECRET_LUCKY_BLOCK_NAME : String := "Secret Lucky Block"

/-- Union `ALL_TIER_PETS = TIER1_PETS | TIER2_PETS | TIER3_PETS`; membership
in the concatenation is equivalent to membership in the union. -/
def ALL_TIER_PETS : List String := TIER1_PETS ++ TIER2_PETS ++ TIER3_PETS

def GEN_HIGH : Int := 20000000

/-- Python `str.strip()` with no argument: remove leading and trailing
whitespace.  Modelled directly on the character sequence. -/
def strip (s : String) : String :=
  ⟨((s.data.dropWhile Char.isWhitespace).reverse.dropWhile Char.isWhitespace).reverse⟩

/-- Function `get_pet_tier` (main.py lines 381–391). -/
def get_pet_tier (pet : Pet) : Option Nat :=
  let name := strip pet.index
  if name = "Capitano Moby" then
    some (if pet.gen ≥ 1000000000 then 1 else 2)
  else if name ∈ TIER1_PETS then some 1
  else if name ∈ TIER2_PETS then some 2
  else if name ∈ TIER3_PETS then some 3
  else none

/-- Function `is_secret_lucky_block` (main.py lines 393–394). -/
def is_secret_lucky_block (pet : Pet) : Bool :=
  strip pet.index = SECRET_LUCKY_BLOCK_NAME

/-- Function `is_gen_high` (main.py lines 396–400). -/
def is_gen_high (pet : Pet) : Bool :=
  let name := strip pet.index
  if name ∈ ALL_TIER_PETS ∨ name = "Capitano Moby" ∨
      name = SECRET_LUCKY_BLOCK_NAME then
    false
  else
    pet.gen > GEN_HIGH

/-- Which notification (if any) the upload path sends for one pet:
the per-pet branch of `upload_pets` (main.py lines 508–516) —
secret-lucky-block first, then tier, then high-gen, else nothing. -/
inductive Notification where
  | secretLuckyBlock
  | tier (t : Nat)
  | highGen
  | nothing
deriving DecidableEq, Repr

def notification_for (pet : Pet) : Notification :=
  if is_secret_lucky_block pet then
    Notification.secretLuckyBlock
  else
    match get_pet_tier pet with
    | some t => Notification.tier t
    | none => if is_gen_high pet then Notification.highGen else Notification.nothing

/-! ## Gen counters (main.py lines 90–124)

Dict `_gen_counters` has the five fixed keys `10M`, `50M`, `100M`,
`500M`, `1B`; `_total_pets_received` is the companion global incremented by
the same function.  Both are embedded as one record. -/

structure GenCounters where
  c10M : Nat
  c50M : Nat
  c100M : Nat
  c500M : Nat
  c1B : Nat
  total : Nat
deriving DecidableEq, Repr

/-- The initial counter state (all literals `0` at module load). -/
def initGenCounters : GenCounters := ⟨0, 0, 0, 0, 0, 0⟩

/-- Function `update_gen_counters` (main.py lines 100–124): an if/elif chain on
`pet.gen` with cumulative increments in each branch, plus the
`_total_pets_received += 1` at the top. -/
def update_gen_counters (c : GenCounters) (pet : Pet) : GenCounters :=
  let c := { c with total := c.total + 1 }
  let g := pet.gen
  if g > 1000000000 then
    { c with c1B := c.c1B + 1, c500M := c.c500M + 1, c100M := c.c100M + 1,
             c50M := c.c50M + 1, c10M := c.c10M + 1 }
  else if g > 500000000 then
    { c with c500M := c.c500M + 1, c100M := c.c100M + 1,
             c50M := c.c50M + 1, c10M := c.c10M + 1 }
  else if g > 100000000 then
    { c with c100M := c.c100M + 1, c50M := c.c50M + 1, c10M := c.c10M + 1 }
  else if g > 50000000 then
    { c with c50M := c.c50M + 1, c10M := c.c10M + 1 }
  else if g > 10000000 then
    { c with c10M := c.c10M + 1 }
  else
    c

/-- A sequence of `update_gen_counters` calls, one per recorded pet. -/
def record_all (c : GenCounters) (pets : List Pet) : GenCounters :=
  pets.foldl update_gen_counters c

/-! ## Job-id identifier cache (main.py lines 129–216)

State: the module globals `_job_ids_cache` and `_cache_updated_at`.
The external paginated source is modelled by an oracle: the list of results
the successive `client.get(ROBLOX_API_URL, ...)` calls would produce.  A
`success ids hasNext` oracle entry is a 200 response whose `data` field
yields the server ids `ids` and whose `nextPageCursor` is present iff
`hasNext`; `rateLimited` is a 429 response; `httpError` is any other
status; `exn` is an exception raised by the transport.  An exhausted
oracle is treated as a transport exception. -/

def CACHE_TTL_SECONDS : Int := 90

structure CacheState where
  jobIdsCache : List String
  cacheUpdatedAt : Option Int
deriving DecidableEq, Repr

inductive FetchResult where
  | success (ids : List String) (hasNext : Bool)
  | rateLimited
  | httpError
  | exn
deriving DecidableEq, Repr

/-- Outcome of the pagination `while` loop (main.py lines 154–191):
either it broke out normally (no next cursor), broke on a non-200/429
status, returned from inside the 429 branch, or an exception was raised.
The accumulated server ids collected before stopping are carried along. -/
inductive LoopOutcome where
  | completed (all : List String)
  | stoppedError (all : List String)
  | rateLimitedAt (all : List String)
  | raised
deriving DecidableEq, Repr

/-- The pagination loop: walks the oracle, accumulating `all_servers`, and
reports the outcome together with the number of fetch calls performed. -/
def run_pages (acc : List String) : List FetchResult → LoopOutcome × Nat
  | [] => (LoopOutcome.raised, 0)
  | FetchResult.success ids hasNext :: rest =>
      if hasNext then
        let (o, n) := run_pages (acc ++ ids) rest
        (o, n + 1)
      else
        (LoopOutcome.completed (acc ++ ids), 1)
  | FetchResult.rateLimited :: _ => (LoopOutcome.rateLimitedAt acc, 1)
  | FetchResult.httpError :: _ => (LoopOutcome.stoppedError acc, 1)
  | FetchResult.exn :: _ => (LoopOutcome.raised, 1)

/-- The `cache_expirado` test (main.py lines 140–143):
`_cache_updated_at is None or (agora - _cache_updated_at).total_seconds() >
CACHE_TTL_SECONDS`. -/
def cache_expired (now : Int) (st : CacheState) : Bool :=
  match st.cacheUpdatedAt with
  | none => true
  | some t => decide (now - t > CACHE_TTL_SECONDS)

/-- Function `get_cached_job_ids` (main.py lines 134–216), as a function of the
current time, current state and fetch oracle.  Returns the new state, the
number of fetch calls made, and the returned job-id list.

* Not expired (timestamp set and elapsed ≤ TTL): return the cache, no fetch.
* 429 branch (lines 176–188): non-empty accumulation replaces the pool and
  stamps the timestamp; empty accumulation only stamps the timestamp.
* Loop exit via no-cursor or via a non-200/429 status both fall through to
  lines 193–206: non-empty accumulation replaces pool and stamps; empty
  accumulation only stamps (prior pool kept).
* Exception (lines 208–210): stamp the timestamp, pool untouched. -/
def get_cached_job_ids (now : Int) (st : CacheState) (oracle : List FetchResult) :
    CacheState × Nat × List String :=
  if cache_expired now st then
    match run_pages [] oracle with
    | (LoopOutcome.completed all, n) =>
        if all ≠ [] then (⟨all, some now⟩, n, all)
        else ({ st with cacheUpdatedAt := some now }, n, st.jobIdsCache)
    | (LoopOutcome.stoppedError all, n) =>
        if all ≠ [] then (⟨all, some now⟩, n, all)
        else ({ st with cacheUpdatedAt := some now }, n, st.jobIdsCache)
    | (LoopOutcome.rateLimitedAt all, n) =>
        if all ≠ [] then (⟨all, some now⟩, n, all)
        else ({ st with cacheUpdatedAt := some now }, n, st.jobIdsCache)
    | (LoopOutcome.raised, n) =>
        ({ st with cacheUpdatedAt := some now }, n, st.jobIdsCache)
  else
    (st, 0, st.jobIdsCache)

/-! ## Status-reporter state machine (main.py lines 230 and 312–334)

State: the global `_status_message_id : Optional[str]` (`none` =
Uninitialized, `some mid` = Bound).  One iteration of the `while True`
body, after the snapshot/rendering, performs either a create (POST with
`?wait=true`) when the id is `None`, or an update (PATCH) when it is set.
The oracles below describe what the one HTTP call of the tick would
return. -/

/-- Result of the create POST: `ok mid` is a 200/204 response whose JSON
body's `id` field is `mid` (`resp.json().get("id")`, hence an `Option`);
`badStatus` is any other status; `exn` is a raised exception (caught by
the tick's `except`). -/
inductive CreateResult where
  | ok (mid : Option String)
  | badStatus
  | exn
deriving DecidableEq, Repr

/-- Result of the update PATCH: `ok` is a 200/204 response; `badStatus`
is any other status; `exn` is a raised exception (caught by the tick's
`except`). -/
inductive UpdateResult where
  | ok
  | badStatus
  | exn
deriving DecidableEq, Repr

/-- One tick of `_status_loop` (main.py lines 312–334), restricted to its
effect on `_status_message_id`.  When the id is `None` the create oracle
is consulted; otherwise the update oracle is.  Note the `except` handler
(lines 333–334) only prints: an exception leaves the id as it was. -/
def status_tick (mid : Option String) (cr : CreateResult) (ur : UpdateResult) :
    Option String :=
  match mid with
  | none =>
      match cr with
      | CreateResult.ok newId => newId
      | CreateResult.badStatus => none
      | CreateResult.exn => none
  | some m =>
      match ur with
      | UpdateResult.ok => some m
      | UpdateResult.badStatus => none
      | UpdateResult.exn => some m

/-! ## Webhook sends and the upload path (main.py lines 416–423, 485–525) -/

/-- What one `client.post(url, json=payload)` inside `send_webhook` would
do: return some HTTP status, or raise. -/
inductive HttpResult where
  | status (code : Nat)
  | exn
deriving DecidableEq, Repr

/-- What `send_webhook` logged for one send. -/
inductive SendLog where
  | delivered
  | loggedBadStatus (code : Nat)
  | loggedError
deriving DecidableEq, Repr

/-- Observable result of one `send_webhook` call seen from its caller:
either the call returned normally (having logged `log`), or an exception
escaped to the caller (which the code's `try/except` makes impossible). -/
inductive SendResult where
  | returned (log : SendLog)
  | raised (msg : String)
deriving DecidableEq, Repr

/-- Function `send_webhook` (main.py lines 416–423): one POST; a non-200/204 status
is printed and swallowed; an exception is caught and printed.  The `Nat`
counts the POST attempts the body performs (always one: there is no retry
loop). -/
def send_webhook (r : HttpResult) : SendResult × Nat :=
  match r with
  | HttpResult.status code =>
      if code = 200 ∨ code = 204 then (SendResult.returned SendLog.delivered, 1)
      else (SendResult.returned (SendLog.loggedBadStatus code), 1)
  | HttpResult.exn => (SendResult.returned SendLog.loggedError, 1)

/-- The JSON body returned by the `/upload` endpoint on the non-exception
path: `{"status": "ok", "pets_received": len(data.pets), "job_id": ...}`
(main.py line 522). -/
structure UploadResponse where
  status : String
  pets_received : Nat
  job_id : Option String
deriving DecidableEq, Repr

/-- Function `upload_pets` (main.py lines 485–525), restricted to the state the
claims are about: every pet updates the gen counters; each pet appends at
most one notification coroutine to `tasks` (secret-lucky-block first,
then tier, then high-gen — `notification_for`); `asyncio.gather(...,
return_exceptions=True)` then runs each send once, with `outcome` giving
each pet's webhook POST result.  Returns the response, the updated
counters, the per-send `send_webhook` results, and the total number of
webhook POST attempts. -/
def upload_pets (pets : List Pet) (job_id : Option String) (c : GenCounters)
    (outcome : Pet → HttpResult) :
    UploadResponse × GenCounters × List SendResult × Nat :=
  let c' := record_all c pets
  let tasks := pets.filter (fun p => notification_for p ≠ Notification.nothing)
  let sends := tasks.map (fun p => send_webhook (outcome p))
  (⟨"ok", pets.length, job_id⟩, c', sends.map Prod.fst, (sends.map Prod.snd).sum)

/-! ## Concrete sample values used by witnesses -/

/-- A special-name pet at the exact 1B boundary. -/
def petCM1B : Pet := ⟨"Capitano Moby", 1000000000, "1B", "Secret", "", ""⟩

/-- A pet named in the tier-1 set, with a tiny gen. -/
def petCerberus : Pet := ⟨"Cerberus", 5, "5", "Secret", "", ""⟩

/-- A pet carrying one of the four comma-orphaned names. -/
def petCooki : Pet := ⟨"Cooki and Milki", 123, "", "", "", ""⟩

/-- An unlisted pet just above the high-gen floor. -/
def petHigh : Pet := ⟨"Totally Unknown Pet", 20000001, "", "", "", ""⟩

/-- An unlisted pet exactly at the high-gen floor. -/
def petFloor : Pet := ⟨"Totally Unknown Pet", 20000000, "", "", "", ""⟩

/-- A pet whose gen exceeds every counter threshold. -/
def petBig : Pet := ⟨"x", 2000000000, "", "", "", ""⟩

/-- A pet whose gen is exactly the lowest counter threshold. -/
def petSmall : Pet := ⟨"x", 10000000, "", "", "", ""⟩

/-! ## Shared helper lemmas -/

/-- Every tier-1 name differs from both special names. -/
theorem tier1_mem_props : ∀ s ∈ TIER1_PETS,
    s ≠ "Capitano Moby" ∧ s ≠ SECRET_LUCKY_BLOCK_NAME := by decide

/-- Every tier-2 name differs from the special names and the tier-1 set. -/
theorem tier2_mem_props : ∀ s ∈ TIER2_PETS,
    s ≠ "Capitano Moby" ∧ s ∉ TIER1_PETS ∧ s ≠ SECRET_LUCKY_BLOCK_NAME := by decide

/-- Every tier-3 name differs from the special names and the higher sets. -/
theorem tier3_mem_props : ∀ s ∈ TIER3_PETS,
    s ≠ "Capitano Moby" ∧ s ∉ TIER1_PETS ∧ s ∉ TIER2_PETS ∧
      s ≠ SECRET_LUCKY_BLOCK_NAME := by decide

/-- Tier lookup misses exactly when the stripped name is neither the
magnitude-dependent special name nor in any tier set. -/
theorem get_pet_tier_eq_none (pet : Pet) :
    get_pet_tier pet = none ↔
      (strip pet.index ≠ "Capitano Moby" ∧ strip pet.index ∉ TIER1_PETS ∧
       strip pet.index ∉ TIER2_PETS ∧ strip pet.index ∉ TIER3_PETS) := by
  unfold get_pet_tier
  by_cases h1 : strip pet.index = "Capitano Moby"
  · simp [h1]
  · by_cases h2 : strip pet.index ∈ TIER1_PETS
    · simp [h1, h2]
    · by_cases h3 : strip pet.index ∈ TIER2_PETS
      · simp [h1, h2, h3]
      · by_cases h4 : strip pet.index ∈ TIER3_PETS <;> simp [h1, h2, h3, h4]

/-- One webhook send performs exactly one POST attempt. -/
theorem send_webhook_snd (r : HttpResult) : (send_webhook r).2 = 1 := by
  cases r with
  | status code =>
      simp only [send_webhook]
      split_ifs <;> rfl
  | exn => rfl

/-- One webhook send always returns normally, never raising to the caller. -/
theorem send_webhook_fst (r : HttpResult) :
    ∃ l, (send_webhook r).1 = SendResult.returned l := by
  cases r with
  | status code =>
      simp only [send_webhook]
      split_ifs <;> exact ⟨_, rfl⟩
  | exn => exact ⟨_, rfl⟩

/-- Total POST attempts over a task list equal the number of tasks. -/
theorem sends_attempts (f : Pet → HttpResult) (ts : List Pet) :
    ((ts.map (fun p => send_webhook (f p))).map Prod.snd).sum = ts.length := by
  induction ts with
  | nil => rfl
  | cons p ps ih =>
      simp only [List.map_cons, List.map_map, List.sum_cons, send_webhook_snd,
        List.length_cons] at ih ⊢
      omega

/-! ## Claim C1 -/

/-- C1 counterexample: a refresh at time 1000 of a pool last refreshed at
time 0 that hits the rate limit on its first page leaves the pool alone
but stamps the timestamp to 1000 — it is NOT left untouched as the claim
(pool AND timestamp both untouched) asserts. -/
theorem claim_C1_counterexample :
    (get_cached_job_ids 1000 ⟨["srv"], some 0⟩ [FetchResult.rateLimited]).1.jobIdsCache
        = ["srv"] ∧
    (get_cached_job_ids 1000 ⟨["srv"], some 0⟩ [FetchResult.rateLimited]).1.cacheUpdatedAt
        = some 1000 ∧
    some (1000 : Int) ≠ some (0 : Int) := by
  refine ⟨rfl, rfl, by decide⟩

/-- C1 (amended): if an expired refresh hits the rate limit (HTTP 429)
before any page has been collected, the identifier pool is left
untouched, but lastRefreshedAt IS stamped to the current time, so the
cooldown clock is reset and the next external trigger waits a full TTL. -/
theorem claim_C1_rate_limit_zero_pages (now : Int) (st : CacheState)
    (rest : List FetchResult) (hexp : cache_expired now st = true) :
    get_cached_job_ids now st (FetchResult.rateLimited :: rest) =
      ({ st with cacheUpdatedAt := some now }, 1, st.jobIdsCache) := by
  unfold get_cached_job_ids
  rw [hexp]
  simp [run_pages]

/-- C1 witness: the amended statement at the counterexample input. -/
theorem claim_C1_witness :
    cache_expired 1000 ⟨["srv"], some 0⟩ = true ∧
    get_cached_job_ids 1000 ⟨["srv"], some 0⟩ [FetchResult.rateLimited] =
      (⟨["srv"], some 1000⟩, 1, ["srv"]) :=
  ⟨by decide, claim_C1_rate_limit_zero_pages 1000 ⟨["srv"], some 0⟩ [] (by decide)⟩

/-! ## Claim C2 -/

/-- C2 counterexample: a refresh whose first page succeeds (one id, with a
next cursor) and whose second page returns a non-success, non-429 status
REPLACES the pool with the page collected before the failure — the claim
says the pool is never replaced on a transport/format error. -/
theorem claim_C2_counterexample :
    (get_cached_job_ids 1000 ⟨["old"], none⟩
        [FetchResult.success ["p1"] true, FetchResult.httpError]).1.jobIdsCache = ["p1"] ∧
    (["p1"] : List String) ≠ ["old"] :=
  ⟨rfl, by decide⟩

/-- C2 (amended): on an exception the pool is untouched and lastRefreshedAt
is stamped to now; on a non-success, non-429 status the pagination stops
and the pages collected before the failure, when non-empty, replace the
pool (timestamp stamped); only when zero pages were collected is the pool
untouched, with the timestamp still stamped. -/
theorem claim_C2_failure_paths (now : Int) (st : CacheState)
    (oracle : List FetchResult) (n : Nat) (hexp : cache_expired now st = true) :
    (run_pages [] oracle = (LoopOutcome.raised, n) →
       get_cached_job_ids now st oracle =
         ({ st with cacheUpdatedAt := some now }, n, st.jobIdsCache)) ∧
    (∀ all, run_pages [] oracle = (LoopOutcome.stoppedError all, n) → all ≠ [] →
       get_cached_job_ids now st oracle = (⟨all, some now⟩, n, all)) ∧
    (∀ all, run_pages [] oracle = (LoopOutcome.stoppedError all, n) → all = [] →
       get_cached_job_ids now st oracle =
         ({ st with cacheUpdatedAt := some now }, n, st.jobIdsCache)) := by
  refine ⟨fun h => ?_, fun all h hne => ?_, fun all h he => ?_⟩ <;>
    · unfold get_cached_job_ids
      rw [hexp, h]
      simp_all

/-- C2 witness: the amended statement at the counterexample input. -/
theorem claim_C2_witness :
    run_pages [] [FetchResult.success ["p1"] true, FetchResult.httpError] =
      (LoopOutcome.stoppedError ["p1"], 2) ∧
    get_cached_job_ids 1000 ⟨["old"], none⟩
        [FetchResult.success ["p1"] true, FetchResult.httpError] =
      (⟨["p1"], some 1000⟩, 2, ["p1"]) :=
  ⟨by decide,
   (claim_C2_failure_paths 1000 ⟨["old"], none⟩
       [FetchResult.success ["p1"] true, FetchResult.httpError] 2
       (by decide)).2.1 ["p1"] (by decide) (by decide)⟩

/-! ## Claim C3 -/

/-- C3: a pet whose stripped name is the reserved special name
Capitano Moby classifies to tier 1 when its gen is at least 1,000,000,000
and to tier 2 when its gen is strictly below that threshold; the boundary
value belongs to tier 1 (inclusive lower bound, witnessed below). -/
theorem claim_C3_capitano_moby_threshold (pet : Pet)
    (h : strip pet.index = "Capitano Moby") :
    (pet.gen ≥ 1000000000 → get_pet_tier pet = some 1) ∧
    (pet.gen < 1000000000 → get_pet_tier pet = some 2) := by
  constructor <;> intro hg
  · simp [get_pet_tier, h, hg]
  · simp [get_pet_tier, h]
    omega

/-- C3 witness: the boundary gen 1,000,000,000 itself classifies to
tier 1. -/
theorem claim_C3_witness :
    strip petCM1B.index = "Capitano Moby" ∧ petCM1B.gen ≥ 1000000000 ∧
    get_pet_tier petCM1B = some 1 :=
  ⟨by decide, by decide,
   (claim_C3_capitano_moby_threshold petCM1B (by decide)).1 (by decide)⟩

/-! ## Claim C4 -/

/-- C4: a pet whose stripped name belongs to TIER1_PETS, TIER2_PETS or
TIER3_PETS classifies to tier 1, 2 or 3 respectively, regardless of gen,
and the upload path sends exactly the corresponding tier notification —
never the secret-lucky-block or high-gen one.  (No tier-set name equals
Capitano Moby, so the special rule never preempts these.) -/
theorem claim_C4_tier_sets_classification (pet : Pet) :
    (strip pet.index ∈ TIER1_PETS →
        get_pet_tier pet = some 1 ∧ notification_for pet = Notification.tier 1) ∧
    (strip pet.index ∈ TIER2_PETS →
        get_pet_tier pet = some 2 ∧ notification_for pet = Notification.tier 2) ∧
    (strip pet.index ∈ TIER3_PETS →
        get_pet_tier pet = some 3 ∧ notification_for pet = Notification.tier 3) := by
  refine ⟨fun h => ?_, fun h => ?_, fun h => ?_⟩
  · obtain ⟨hcm, hslb⟩ := tier1_mem_props _ h
    have htier : get_pet_tier pet = some 1 := by simp [get_pet_tier, hcm, h]
    exact ⟨htier, by simp [notification_for, is_secret_lucky_block, hslb, htier]⟩
  · obtain ⟨hcm, h1, hslb⟩ := tier2_mem_props _ h
    have htier : get_pet_tier pet = some 2 := by simp [get_pet_tier, hcm, h1, h]
    exact ⟨htier, by simp [notification_for, is_secret_lucky_block, hslb, htier]⟩
  · obtain ⟨hcm, h1, h2, hslb⟩ := tier3_mem_props _ h
    have htier : get_pet_tier pet = some 3 := by simp [get_pet_tier, hcm, h1, h2, h]
    exact ⟨htier, by simp [notification_for, is_secret_lucky_block, hslb, htier]⟩

/-- C4 witness: Cerberus (tier-1 set, gen 5) classifies to tier 1 and the
upload path sends the tier-1 notification. -/
theorem claim_C4_witness :
    strip petCerberus.index ∈ TIER1_PETS ∧
    get_pet_tier petCerberus = some 1 ∧
    notification_for petCerberus = Notification.tier 1 := by
  refine ⟨by decide, (claim_C4_tier_sets_classification petCerberus).1 (by decide)⟩

/-! ## Claim C5 -/

/-- C5: the high-gen test fires exactly when no tier rule matched (which
covers the tier sets and Capitano Moby), the pet is not the secret lucky
block, and gen is strictly greater than the 20,000,000 floor; a gen
exactly equal to the floor never triggers it. -/
theorem claim_C5_high_gen_guard (pet : Pet) :
    (is_gen_high pet = true ↔
      (get_pet_tier pet = none ∧ is_secret_lucky_block pet = false ∧
       pet.gen > GEN_HIGH)) ∧
    (pet.gen = GEN_HIGH → is_gen_high pet = false) := by
  constructor
  · unfold is_gen_high
    by_cases h : strip pet.index ∈ ALL_TIER_PETS ∨ strip pet.index = "Capitano Moby" ∨
        strip pet.index = SECRET_LUCKY_BLOCK_NAME
    · simp only [if_pos h]
      constructor
      · intro hf; cases hf
      · rintro ⟨hnone, hslb, -⟩
        rw [get_pet_tier_eq_none] at hnone
        unfold ALL_TIER_PETS at h
        simp only [List.mem_append] at h
        unfold is_secret_lucky_block at hslb
        simp only [decide_eq_false_iff_not] at hslb
        tauto
    · simp only [if_neg h]
      push_neg at h
      rw [get_pet_tier_eq_none]
      unfold ALL_TIER_PETS at h
      simp only [List.mem_append, not_or] at h
      unfold is_secret_lucky_block
      simp only [decide_eq_true_eq, decide_eq_false_iff_not]
      tauto
  · intro hg
    unfold is_gen_high
    by_cases h : strip pet.index ∈ ALL_TIER_PETS ∨ strip pet.index = "Capitano Moby" ∨
        strip pet.index = SECRET_LUCKY_BLOCK_NAME
    · simp [h]
    · simp [h, hg]

/-- C5 witness: an unlisted pet at gen 20,000,001 triggers high-gen; the
same name at exactly 20,000,000 does not. -/
theorem claim_C5_witness :
    is_gen_high petHigh = true ∧ is_gen_high petFloor = false :=
  ⟨by decide, (claim_C5_high_gen_guard petFloor).2 (by decide)⟩

/-! ## Claim C6 -/

/-- C6: recording one pet adds exactly one to each bucket whose threshold
is strictly below its gen and leaves every other bucket unchanged
(cumulative semantics); a gen above the highest threshold increments all
five buckets, a gen at or below the lowest increments none, and every
bucket is monotonically non-decreasing across any sequence of record
calls. -/
theorem claim_C6_gen_counters_cumulative :
    (∀ (c : GenCounters) (p : Pet),
       (update_gen_counters c p).c10M = c.c10M + (if p.gen > 10000000 then 1 else 0) ∧
       (update_gen_counters c p).c50M = c.c50M + (if p.gen > 50000000 then 1 else 0) ∧
       (update_gen_counters c p).c100M = c.c100M + (if p.gen > 100000000 then 1 else 0) ∧
       (update_gen_counters c p).c500M = c.c500M + (if p.gen > 500000000 then 1 else 0) ∧
       (update_gen_counters c p).c1B = c.c1B + (if p.gen > 1000000000 then 1 else 0)) ∧
    (∀ (c : GenCounters) (p : Pet), p.gen > 1000000000 →
       (update_gen_counters c p).c10M = c.c10M + 1 ∧
       (update_gen_counters c p).c50M = c.c50M + 1 ∧
       (update_gen_counters c p).c100M = c.c100M + 1 ∧
       (update_gen_counters c p).c500M = c.c500M + 1 ∧
       (update_gen_counters c p).c1B = c.c1B + 1) ∧
    (∀ (c : GenCounters) (p : Pet), p.gen ≤ 10000000 →
       (update_gen_counters c p).c10M = c.c10M ∧
       (update_gen_counters c p).c50M = c.c50M ∧
       (update_gen_counters c p).c100M = c.c100M ∧
       (update_gen_counters c p).c500M = c.c500M ∧
       (update_gen_counters c p).c1B = c.c1B) ∧
    (∀ (c : GenCounters) (pets : List Pet),
       c.c10M ≤ (record_all c pets).c10M ∧
       c.c50M ≤ (record_all c pets).c50M ∧
       c.c100M ≤ (record_all c pets).c100M ∧
       c.c500M ≤ (record_all c pets).c500M ∧
       c.c1B ≤ (record_all c pets).c1B) := by
  have hpt : ∀ (c : GenCounters) (p : Pet),
      (update_gen_counters c p).c10M = c.c10M + (if p.gen > 10000000 then 1 else 0) ∧
      (update_gen_counters c p).c50M = c.c50M + (if p.gen > 50000000 then 1 else 0) ∧
      (update_gen_counters c p).c100M = c.c100M + (if p.gen > 100000000 then 1 else 0) ∧
      (update_gen_counters c p).c500M = c.c500M + (if p.gen > 500000000 then 1 else 0) ∧
      (update_gen_counters c p).c1B = c.c1B + (if p.gen > 1000000000 then 1 else 0) := by
    intro c p
    simp only [update_gen_counters]
    split_ifs with h1 h2 h3 h4 h5 <;> simp <;> omega
  have step : ∀ (c : GenCounters) (p : Pet),
      c.c10M ≤ (update_gen_counters c p).c10M ∧
      c.c50M ≤ (update_gen_counters c p).c50M ∧
      c.c100M ≤ (update_gen_counters c p).c100M ∧
      c.c500M ≤ (update_gen_counters c p).c500M ∧
      c.c1B ≤ (update_gen_counters c p).c1B := by
    intro c p
    obtain ⟨a1, a2, a3, a4, a5⟩ := hpt c p
    refine ⟨?_, ?_, ?_, ?_, ?_⟩
    · rw [a1]; split_ifs <;> omega
    · rw [a2]; split_ifs <;> omega
    · rw [a3]; split_ifs <;> omega
    · rw [a4]; split_ifs <;> omega
    · rw [a5]; split_ifs <;> omega
  have hmono : ∀ (c : GenCounters) (pets : List Pet),
      c.c10M ≤ (record_all c pets).c10M ∧
      c.c50M ≤ (record_all c pets).c50M ∧
      c.c100M ≤ (record_all c pets).c100M ∧
      c.c500M ≤ (record_all c pets).c500M ∧
      c.c1B ≤ (record_all c pets).c1B := by
    intro c pets
    induction pets generalizing c with
    | nil => exact ⟨le_refl _, le_refl _, le_refl _, le_refl _, le_refl _⟩
    | cons p ps ih =>
        obtain ⟨s1, s2, s3, s4, s5⟩ := step c p
        obtain ⟨b1, b2, b3, b4, b5⟩ := ih (update_gen_counters c p)
        have hrec : record_all c (p :: ps) = record_all (update_gen_counters c p) ps := rfl
        rw [hrec]
        exact ⟨le_trans s1 b1, le_trans s2 b2, le_trans s3 b3,
               le_trans s4 b4, le_trans s5 b5⟩
  refine ⟨hpt, ?_, ?_, hmono⟩
  · intro c p hg
    obtain ⟨a1, a2, a3, a4, a5⟩ := hpt c p
    refine ⟨?_, ?_, ?_, ?_, ?_⟩
    · rw [a1, if_pos (by omega : p.gen > 10000000)]
    · rw [a2, if_pos (by omega : p.gen > 50000000)]
    · rw [a3, if_pos (by omega : p.gen > 100000000)]
    · rw [a4, if_pos (by omega : p.gen > 500000000)]
    · rw [a5, if_pos hg]
  · intro c p hg
    obtain ⟨a1, a2, a3, a4, a5⟩ := hpt c p
    refine ⟨?_, ?_, ?_, ?_, ?_⟩
    · rw [a1, if_neg (by omega : ¬ p.gen > 10000000)]; omega
    · rw [a2, if_neg (by omega : ¬ p.gen > 50000000)]; omega
    · rw [a3, if_neg (by omega : ¬ p.gen > 100000000)]; omega
    · rw [a4, if_neg (by omega : ¬ p.gen > 500000000)]; omega
    · rw [a5, if_neg (by omega : ¬ p.gen > 1000000000)]; omega

/-- C6 witness: gen 2,000,000,000 increments the 1B bucket; gen exactly
10,000,000 leaves the 10M bucket unchanged. -/
theorem claim_C6_witness :
    (update_gen_counters initGenCounters petBig).c1B = initGenCounters.c1B + 1 ∧
    (update_gen_counters initGenCounters petSmall).c10M = initGenCounters.c10M :=
  ⟨(claim_C6_gen_counters_cumulative.2.1 initGenCounters petBig (by decide)).2.2.2.2,
   (claim_C6_gen_counters_cumulative.2.2.1 initGenCounters petSmall (by decide)).1⟩

/-! ## Claim C7 -/

/-- C7: a lookup while the cache is within TTL (timestamp set and elapsed
time at most 90 seconds) makes zero fetch calls and leaves the state and
pool unchanged, whatever the external source would have answered. -/
theorem claim_C7_ttl_idempotent (now t : Int) (st : CacheState)
    (oracle : List FetchResult) (hset : st.cacheUpdatedAt = some t)
    (h : now - t ≤ CACHE_TTL_SECONDS) :
    get_cached_job_ids now st oracle = (st, 0, st.jobIdsCache) := by
  have hexp : cache_expired now st = false := by
    unfold cache_expired
    rw [hset]
    simp only [decide_eq_false_iff_not, not_lt]
    exact h
  unfold get_cached_job_ids
  rw [hexp]
  simp

/-- C7 witness: at time 50, a cache stamped at time 0 is served as-is with
no fetch, even though the oracle would raise. -/
theorem claim_C7_witness :
    (⟨["a"], some 0⟩ : CacheState).cacheUpdatedAt = some 0 ∧
    ((50 : Int) - 0 ≤ CACHE_TTL_SECONDS) ∧
    get_cached_job_ids 50 ⟨["a"], some 0⟩ [FetchResult.exn] = (⟨["a"], some 0⟩, 0, ["a"]) :=
  ⟨rfl, by decide, claim_C7_ttl_idempotent 50 0 ⟨["a"], some 0⟩ [FetchResult.exn] rfl (by decide)⟩

/-! ## Claim C8 -/

/-- C8 counterexample: from the Bound state (stored id "msg"), an update
that fails with a transport error (exception) does NOT discard the stored
identifier — the state stays Bound, contradicting the claim that any
failed update transitions back to Uninitialized. -/
theorem claim_C8_counterexample :
    status_tick (some "msg") CreateResult.badStatus UpdateResult.exn = some "msg" ∧
    (some "msg" : Option String) ≠ none :=
  ⟨rfl, by simp⟩

/-- C8 (amended): from Uninitialized, a successful create stores the
returned message identifier; from Bound, an update returning a
non-success HTTP response discards the stored identifier so the next tick
issues a fresh create, while an update failing with a transport error
leaves the identifier stored, so the next tick retries the update. -/
theorem claim_C8_status_machine :
    (∀ (newId : Option String) (ur : UpdateResult),
        status_tick none (CreateResult.ok newId) ur = newId) ∧
    (∀ (m : String) (cr : CreateResult),
        status_tick (some m) cr UpdateResult.badStatus = none) ∧
    (∀ (m : String) (cr : CreateResult),
        status_tick (some m) cr UpdateResult.exn = some m) :=
  ⟨fun _ _ => rfl, fun _ _ => rfl, fun _ _ => rfl⟩

/-! ## Claim C9 -/

/-- C9: for every upload batch and every combination of webhook outcomes,
the response is status ok with pets_received equal to the batch length;
the number of POST attempts equals the number of notifiable pets (each
send attempted exactly once, hence at most once per pet, no retries); and
every send returns normally — no failure propagates to the ingest path. -/
theorem claim_C9_upload_swallows_send_failures (pets : List Pet)
    (job_id : Option String) (c : GenCounters) (outcome : Pet → HttpResult) :
    (upload_pets pets job_id c outcome).1 =
      ⟨"ok", pets.length, job_id⟩ ∧
    (upload_pets pets job_id c outcome).2.2.2 =
      (pets.filter (fun p => notification_for p ≠ Notification.nothing)).length ∧
    (upload_pets pets job_id c outcome).2.2.2 ≤ pets.length ∧
    (∀ l ∈ (upload_pets pets job_id c outcome).2.2.1,
        ∃ s, l = SendResult.returned s) := by
  refine ⟨rfl, ?_, ?_, ?_⟩
  · exact sends_attempts outcome (pets.filter (fun p => notification_for p ≠ Notification.nothing))
  · have h1 : (upload_pets pets job_id c outcome).2.2.2 =
        (pets.filter (fun p => notification_for p ≠ Notification.nothing)).length :=
      sends_attempts outcome _
    rw [h1]
    exact List.length_filter_le _ _
  · intro l hl
    simp only [upload_pets, List.map_map, List.mem_map, Function.comp] at hl
    obtain ⟨p, -, hp⟩ := hl
    obtain ⟨s, hs⟩ := send_webhook_fst (outcome p)
    exact ⟨s, by rw [← hp, hs]⟩

/-- C9 witness: a one-pet batch whose webhook send raises still yields the
ok response with pets_received 1, and the send's logged failure stayed
inside send_webhook. -/
theorem claim_C9_witness :
    (upload_pets [petCerberus] (some "job") initGenCounters (fun _ => HttpResult.exn)).1 =
      ⟨"ok", 1, some "job"⟩ ∧
    (∃ s, SendResult.returned SendLog.loggedError = SendResult.returned s) :=
  ⟨(claim_C9_upload_swallows_send_failures [petCerberus] (some "job") initGenCounters
      (fun _ => HttpResult.exn)).1,
   (claim_C9_upload_swallows_send_failures [petCerberus] (some "job") initGenCounters
      (fun _ => HttpResult.exn)).2.2.2
     (SendResult.returned SendLog.loggedError) (by decide)⟩

/-! ## Claim C10 -/

/-- C10: each of the four comma-orphaned names — Cooki and Milki, Popcuru
And Fizzuru, Money Money Puggy, Bacuru and Egguru — gets no tier from
get_pet_tier, while the concatenated literals produced by the missing
commas are the actual members of TIER2_PETS and TIER3_PETS. -/
theorem claim_C10_concatenated_literals (pet : Pet)
    (h : strip pet.index = "Cooki and Milki" ∨ strip pet.index = "Popcuru And Fizzuru" ∨
         strip pet.index = "Money Money Puggy" ∨ strip pet.index = "Bacuru and Egguru") :
    get_pet_tier pet = none ∧
    "Popcuru And FizzuruCooki and Milki" ∈ TIER2_PETS ∧
    "Bacuru and EgguruMoney Money Puggy" ∈ TIER3_PETS := by
  refine ⟨?_, by decide, by decide⟩
  rw [get_pet_tier_eq_none]
  rcases h with h|h|h|h <;> rw [h] <;> refine ⟨by decide, by decide, by decide, by decide⟩

/-- C10 witness: the pet named Cooki and Milki receives no tier. -/
theorem claim_C10_witness :
    strip petCooki.index = "Cooki and Milki" ∧ get_pet_tier petCooki = none :=
  ⟨by decide, (claim_C10_concatenated_literals petCooki (Or.inl (by decide))).1⟩

end PetsApi
